import Mathlib

/-!
Verification development for the WhiteCatBot message-routing core.

This file gives a shallow embedding, in Lean, of the handler pipeline
(src/pipeline/__init__.py), the service router (src/service_router.py),
the service/provider fallback chain and loaders (src/video_services/__init__.py),
and the AI trigger registry (src/ai_handler_pipeline/trigger_registry.py and
src/ai_handler_pipeline/triggers/__init__.py), together with theorems about
the ordering, short-circuiting, error-containment and configuration-loading
behaviour of those components.

Modelling conventions:
- A Python call that may raise is modelled by the type Call, whose value
  Call.exn stands for "the call raised".  Because Python methods mutate the
  shared context in place, a handler call is modelled as a function returning
  the mutated state together with its Call outcome; a call that raises still
  delivers the state as mutated up to the raise point.
- The Telegram Update and callback-context objects are opaque to the engine
  (it never reads them); the update is modelled as an opaque Nat tag carried
  in the context, and concrete handlers/triggers are arbitrary Lean functions.
- os.environ is modelled as Env := String -> Option String (os.getenv).
- Logging is not modelled; log statements have no observable effect here.
- In order to state "handler X was never invoked", the executable semantics
  return, besides the final state, a trace of invocation events.
-/

/-- Outcome of a Python call that may raise: either a normal return value or
an exception (the exception object itself is irrelevant to the core). -/
inductive Call (α : Type) where
  | ok : α → Call α
  | exn : Call α
deriving Repr, DecidableEq

/-- Shallow embedding of PipelineContext (src/pipeline/__init__.py, lines 32-62).
The update (and the telegram callback context) are opaque references the engine
never inspects; the update is kept as an opaque numeric tag.  The data dict is
modelled as an association list. -/
structure PipelineContext where
  update : Nat
  should_continue : Bool := true
  data : List (String × String) := []
deriving Repr, DecidableEq

/-- PipelineContext.stop (source lines 60-62): set should_continue to False. -/
def PipelineContext.stop (c : PipelineContext) : PipelineContext :=
  { c with should_continue := false }

/-- A pipeline handler (PipelineHandler): a gate should_process and an action
process.  Both receive the context and return the (possibly mutated) context
together with the call outcome; a raising call still returns the context as
mutated up to the raise. -/
structure Handler where
  name : String
  priority : Int := 50
  shouldProcess : PipelineContext → PipelineContext × Call Bool
  process : PipelineContext → PipelineContext × Call Unit

/-- MessagePipeline state (source lines 136-145): ordered handler list and the
stop_on_error policy flag. -/
structure MessagePipeline where
  handlers : List Handler
  stop_on_error : Bool := true

/-- Invocation events recorded by the instrumented run: the 1-based handler
index whose gate (should_process) or action (process) was called. -/
inductive PipelineEvent where
  | gateCalled (i : Nat)
  | procCalled (i : Nat)
deriving Repr, DecidableEq

/-- The loop of MessagePipeline.run (source lines 194-220), instrumented with
an invocation trace.  i is the 1-based index of the first handler in the list
(enumerate(self.handlers, 1)).  Mirrors the source exactly:
- loop-top check: if not ctx.should_continue, break (line 195);
- gate call in try: on exception, log and (stop_on_error ? break : continue)
  (lines 200-209); on False, skip the handler (continue);
- process call in try: on exception, log and, if stop_on_error, ctx.stop()
  then break, else continue (lines 213-220). -/
def runFrom (soe : Bool) : List Handler → Nat → PipelineContext →
    PipelineContext × List PipelineEvent
  | [], _, ctx => (ctx, [])
  | h :: hs, i, ctx =>
    if ctx.should_continue = false then (ctx, [])
    else
      match h.shouldProcess ctx with
      | (c, Call.exn) =>
        if soe then (c, [PipelineEvent.gateCalled i])
        else
          let r := runFrom soe hs (i + 1) c
          (r.1, PipelineEvent.gateCalled i :: r.2)
      | (c, Call.ok false) =>
        let r := runFrom soe hs (i + 1) c
        (r.1, PipelineEvent.gateCalled i :: r.2)
      | (c, Call.ok true) =>
        match h.process c with
        | (c2, Call.exn) =>
          if soe then (c2.stop, [PipelineEvent.gateCalled i, PipelineEvent.procCalled i])
          else
            let r := runFrom soe hs (i + 1) c2
            (r.1, PipelineEvent.gateCalled i :: PipelineEvent.procCalled i :: r.2)
        | (c2, Call.ok _) =>
          let r := runFrom soe hs (i + 1) c2
          (r.1, PipelineEvent.gateCalled i :: PipelineEvent.procCalled i :: r.2)

/-- MessagePipeline.run (source lines 178-223): create a fresh context for the
update and run the handler loop from index 1. -/
def MessagePipeline.run (p : MessagePipeline) (u : Nat) :
    PipelineContext × List PipelineEvent :=
  runFrom p.stop_on_error p.handlers 1 { update := u, should_continue := true, data := [] }

/-- A gate call viewed in an exception-propagating semantics: the error channel
carries the context as mutated up to the raise (in-place mutation survives a
Python raise). -/
def gateCallE (h : Handler) (ctx : PipelineContext) :
    Except PipelineContext (PipelineContext × Bool) :=
  match h.shouldProcess ctx with
  | (c, Call.ok b) => Except.ok (c, b)
  | (c, Call.exn) => Except.error c

/-- A process call viewed in an exception-propagating semantics. -/
def procCallE (h : Handler) (ctx : PipelineContext) :
    Except PipelineContext PipelineContext :=
  match h.process ctx with
  | (c, Call.ok _) => Except.ok c
  | (c, Call.exn) => Except.error c

/-- Prefix events onto the trace of a non-exceptional run result. -/
def withEvents (es : List PipelineEvent)
    (r : Except PipelineContext (PipelineContext × List PipelineEvent)) :
    Except PipelineContext (PipelineContext × List PipelineEvent) :=
  r.map fun p => (p.1, es ++ p.2)

/-- The run loop in the exception-propagating semantics: handler calls may
throw (Except.error), and the two try/except blocks of the source (lines
200-209 and 213-220) appear as the match arms on Except.error.  An exception
not matched by one of those arms would propagate to the caller as
Except.error. -/
def runFromE (soe : Bool) : List Handler → Nat → PipelineContext →
    Except PipelineContext (PipelineContext × List PipelineEvent)
  | [], _, ctx => Except.ok (ctx, [])
  | h :: hs, i, ctx =>
    if ctx.should_continue = false then Except.ok (ctx, [])
    else
      match gateCallE h ctx with
      | Except.error c =>
        if soe then Except.ok (c, [PipelineEvent.gateCalled i])
        else withEvents [PipelineEvent.gateCalled i] (runFromE soe hs (i + 1) c)
      | Except.ok (c, false) =>
        withEvents [PipelineEvent.gateCalled i] (runFromE soe hs (i + 1) c)
      | Except.ok (c, true) =>
        match procCallE h c with
        | Except.error c2 =>
          if soe then
            Except.ok (c2.stop, [PipelineEvent.gateCalled i, PipelineEvent.procCalled i])
          else
            withEvents [PipelineEvent.gateCalled i, PipelineEvent.procCalled i]
              (runFromE soe hs (i + 1) c2)
        | Except.ok c2 =>
          withEvents [PipelineEvent.gateCalled i, PipelineEvent.procCalled i]
            (runFromE soe hs (i + 1) c2)

/-- MessagePipeline.run in the exception-propagating semantics. -/
def MessagePipeline.runE (p : MessagePipeline) (u : Nat) :
    Except PipelineContext (PipelineContext × List PipelineEvent) :=
  runFromE p.stop_on_error p.handlers 1 { update := u, should_continue := true, data := [] }

/-- C1: for every handler list and message, the pipeline run in the
exception-propagating semantics never yields Except.error — every handler
exception (from a gate or from a process action) is contained by the engine's
two except blocks and converted into the continuation decision implemented by
the pure semantics runFrom; hence run always returns a PipelineContext. -/
theorem pipeline_run_never_throws :
    (∀ (soe : Bool) (hs : List Handler) (i : Nat) (ctx : PipelineContext),
      runFromE soe hs i ctx = Except.ok (runFrom soe hs i ctx)) ∧
    (∀ (p : MessagePipeline) (u : Nat),
      p.runE u = Except.ok (p.run u)) := by
  have main : ∀ (soe : Bool) (hs : List Handler) (i : Nat) (ctx : PipelineContext),
      runFromE soe hs i ctx = Except.ok (runFrom soe hs i ctx) := by
    intro soe hs
    induction hs with
    | nil => intro i ctx; rfl
    | cons h hs ih =>
      intro i ctx
      by_cases hc : ctx.should_continue = false
      · simp [runFrom, runFromE, hc]
      · rcases hg : h.shouldProcess ctx with ⟨c, cb⟩
        cases cb with
        | exn =>
          cases soe <;>
            simp [runFrom, runFromE, gateCallE, hg, hc, withEvents, Except.map, ih]
        | ok b =>
          cases b with
          | false =>
            simp [runFrom, runFromE, gateCallE, hg, hc, withEvents, Except.map, ih]
          | true =>
            rcases hp : h.process c with ⟨c2, pb⟩
            cases pb with
            | exn =>
              cases soe <;>
                simp [runFrom, runFromE, gateCallE, procCallE, hg, hp, hc, withEvents, Except.map, ih]
            | ok u =>
              simp [runFrom, runFromE, gateCallE, procCallE, hg, hp, hc, withEvents, Except.map, ih]
  exact ⟨main, fun p u => main p.stop_on_error p.handlers 1 _⟩

/-- A concrete handler whose gate raises without mutating the context. -/
def hGateRaises : Handler :=
  { name := "gate-raises"
    shouldProcess := fun c => (c, Call.exn)
    process := fun c => (c, Call.ok ()) }

/-- A concrete benign handler: gate returns True, process returns normally,
neither mutates the context. -/
def hBenign : Handler :=
  { name := "benign"
    shouldProcess := fun c => (c, Call.ok true)
    process := fun c => (c, Call.ok ()) }

/-- The fresh context the engine creates for update tag 0. -/
def ctx0 : PipelineContext := { update := 0, should_continue := true, data := [] }

/-- A context whose continuation flag is already false. -/
def ctxStopped : PipelineContext := { update := 0, should_continue := false, data := [] }

/-- C2 counterexample: a pipeline with stopOnError=true whose first handler's
gate raises.  The run does skip the remaining handler (the trace stops at
gateCalled 1), but the returned context has should_continue = true, not
false: the gate-exception branch of the source (lines 205-208) breaks without
calling ctx.stop(), so the claim that the returned Context has
shouldContinue=false is false on the code. -/
theorem gate_exn_returns_should_continue_true :
    MessagePipeline.run { handlers := [hGateRaises, hBenign], stop_on_error := true } 0
      = (ctx0, [PipelineEvent.gateCalled 1])
    ∧ ctx0.should_continue = true :=
  ⟨rfl, rfl⟩

/-- C2 (amended): with stopOnError=true, when the handler currently considered
by the loop has a gate that raises, the engine breaks out of the loop: no
subsequent handler's gate or process is invoked (the trace ends at this
handler's gate event) and the run returns exactly the context the failing gate
left behind — the engine does not force shouldContinue to false in this
branch (only a raising process does that). -/
theorem run_stops_after_gate_exn (h : Handler) (hs : List Handler) (i : Nat)
    (ctx : PipelineContext) (hsc : ctx.should_continue = true)
    (hexn : (h.shouldProcess ctx).2 = Call.exn) :
    runFrom true (h :: hs) i ctx = ((h.shouldProcess ctx).1, [PipelineEvent.gateCalled i]) := by
  rcases hg : h.shouldProcess ctx with ⟨c, cb⟩
  rw [hg] at hexn
  cases cb with
  | ok b => exact absurd hexn (by simp)
  | exn => simp [runFrom, hg, hsc]

/-- Concrete instance of run_stops_after_gate_exn. -/
theorem run_stops_after_gate_exn_witness :
    runFrom true [hGateRaises, hBenign] 1 ctx0 = (ctx0, [PipelineEvent.gateCalled 1]) :=
  run_stops_after_gate_exn hGateRaises [hBenign] 1 ctx0 rfl rfl

/-- C5: (first conjunct) once should_continue is false at a loop boundary, the
run returns immediately with an empty trace — no further handler's gate or
process is ever invoked; (second conjunct) the context returned by the engine
is either the initial context, or the unmodified output of some handler's gate
or process call, or such an output with PipelineContext.stop applied — stop is
the only write the engine itself performs on the context, and it only sets
should_continue to false, never back to true (monotonicity of the engine's own
steps). -/
theorem pipeline_stop_is_permanent (soe : Bool) (hs : List Handler) (i : Nat)
    (ctx : PipelineContext) :
    (ctx.should_continue = false → runFrom soe hs i ctx = (ctx, [])) ∧
    ((runFrom soe hs i ctx).1 = ctx ∨ ∃ h ∈ hs, ∃ c,
      (runFrom soe hs i ctx).1 = (h.shouldProcess c).1 ∨
      (runFrom soe hs i ctx).1 = (h.process c).1 ∨
      (runFrom soe hs i ctx).1 = ((h.process c).1).stop) := by
  have borig : ∀ (hs : List Handler) (i : Nat) (ctx : PipelineContext),
      (runFrom soe hs i ctx).1 = ctx ∨ ∃ h ∈ hs, ∃ c,
        (runFrom soe hs i ctx).1 = (h.shouldProcess c).1 ∨
        (runFrom soe hs i ctx).1 = (h.process c).1 ∨
        (runFrom soe hs i ctx).1 = ((h.process c).1).stop := by
    intro hs
    induction hs with
    | nil => intro i ctx; left; rfl
    | cons h hs ih =>
      intro i ctx
      by_cases hsc : ctx.should_continue = false
      · left; simp [runFrom, hsc]
      · have lift : ∀ c' : PipelineContext,
            ((runFrom soe hs (i + 1) c').1 = c' →
              c' = (h.shouldProcess ctx).1 ∨ c' = (h.process ((h.shouldProcess ctx).1)).1) →
            (runFrom soe (h :: hs) i ctx).1 = (runFrom soe hs (i + 1) c').1 →
            (runFrom soe (h :: hs) i ctx).1 = ctx ∨ ∃ h' ∈ h :: hs, ∃ c,
              (runFrom soe (h :: hs) i ctx).1 = (h'.shouldProcess c).1 ∨
              (runFrom soe (h :: hs) i ctx).1 = (h'.process c).1 ∨
              (runFrom soe (h :: hs) i ctx).1 = ((h'.process c).1).stop := by
          intro c' hbase heq
          rcases ih (i + 1) c' with hfix | ⟨h', hmem, c, hc⟩
          · rcases hbase hfix with hh | hh
            · exact Or.inr ⟨h, List.mem_cons_self h hs, ctx, Or.inl (by rw [heq, hfix, hh])⟩
            · exact Or.inr ⟨h, List.mem_cons_self h hs, (h.shouldProcess ctx).1,
                Or.inr (Or.inl (by rw [heq, hfix, hh]))⟩
          · exact Or.inr ⟨h', List.mem_cons_of_mem h hmem, c, by rw [heq]; exact hc⟩
        rcases hg : h.shouldProcess ctx with ⟨c, cb⟩
        cases cb with
        | exn =>
          cases soe with
          | true =>
            refine Or.inr ⟨h, List.mem_cons_self h hs, ctx, Or.inl ?_⟩
            simp [runFrom, hsc, hg]
          | false =>
            refine lift c (fun hfix => Or.inl (by rw [hg])) ?_
            simp [runFrom, hsc, hg]
        | ok b =>
          cases b with
          | false =>
            refine lift c (fun hfix => Or.inl (by rw [hg])) ?_
            simp [runFrom, hsc, hg]
          | true =>
            rcases hp : h.process c with ⟨c2, pb⟩
            cases pb with
            | exn =>
              cases soe with
              | true =>
                refine Or.inr ⟨h, List.mem_cons_self h hs, c, Or.inr (Or.inr ?_)⟩
                simp [runFrom, hsc, hg, hp]
              | false =>
                refine lift c2 (fun hfix => Or.inr (by rw [hg, hp])) ?_
                simp [runFrom, hsc, hg, hp]
            | ok u =>
              refine lift c2 (fun hfix => Or.inr (by rw [hg, hp])) ?_
              simp [runFrom, hsc, hg, hp]
  refine ⟨fun hsc => ?_, borig hs i ctx⟩
  cases hs with
  | nil => rfl
  | cons h hs => simp [runFrom, hsc]

/-- Concrete instance of pipeline_stop_is_permanent: a stopped context runs no
handler at all. -/
theorem pipeline_stop_is_permanent_witness :
    runFrom true [hBenign] 1 ctxStopped = (ctxStopped, []) :=
  (pipeline_stop_is_permanent true [hBenign] 1 ctxStopped).1 rfl

/-- A provider instance (BaseProvider, src/video_services/__init__.py lines
17-47): display name, priority, and the resolution call get_video_url, which
returns an Optional download URL and may raise. -/
structure Provider where
  name : String
  priority : Int := 50
  call : String → Call (Option String)

/-- Provider-chain invocation events: the 1-based position (enumerate
(self.providers, 1)) of the provider whose get_video_url was called. -/
inductive SEvent where
  | providerCalled (i : Nat)
deriving Repr, DecidableEq

/-- The consecutive provider events providerCalled i, ..., providerCalled
(i+n-1). -/
def providerCallsFrom (i : Nat) : Nat → List SEvent
  | 0 => []
  | n + 1 => SEvent.providerCalled i :: providerCallsFrom (i + 1) n

/-- The loop of BaseService.get_video_url (source lines 234-254), instrumented
with a trace.  Mirrors the source: each provider's call is wrapped in try; a
truthy (non-None, non-empty) result returns (video_url, i, provider.name)
immediately; a falsy result or a raised exception logs and falls through to
the next provider; when the list is exhausted the result is None. -/
def providersLoop (url : String) : List Provider → Nat →
    Option (String × Nat × String) × List SEvent
  | [], _ => (none, [])
  | p :: ps, i =>
    match p.call url with
    | Call.ok (some v) =>
      if v = "" then
        let r := providersLoop url ps (i + 1)
        (r.1, SEvent.providerCalled i :: r.2)
      else (some (v, i, p.name), [SEvent.providerCalled i])
    | Call.ok none =>
      let r := providersLoop url ps (i + 1)
      (r.1, SEvent.providerCalled i :: r.2)
    | Call.exn =>
      let r := providersLoop url ps (i + 1)
      (r.1, SEvent.providerCalled i :: r.2)

/-- A service instance (BaseService, source lines 50-103): SERVICE_NAME (None
in the abstract base), URL_PATTERN — modelled as an optional matcher function
standing for re.search(URL_PATTERN, text) returning match.group(0) — the
priority, and the provider list populated at load time. -/
structure Service where
  SERVICE_NAME : Option String
  URL_PATTERN : Option (String → Option String)
  priority : Int := 50
  providers : List Provider := []

/-- BaseService.extract_url (source lines 89-103): None for falsy text or a
falsy pattern, otherwise the first match of the pattern in the text. -/
def Service.extract_url (s : Service) (text : String) : Option String :=
  if text = "" then none
  else
    match s.URL_PATTERN with
    | none => none
    | some search => search text

/-- BaseService.get_video_url (source lines 215-254): early None when no
providers are configured, otherwise the provider fallback loop from 1-based
position 1. -/
def Service.get_video_url (s : Service) (url : String) :
    Option (String × Nat × String) × List SEvent :=
  if s.providers.isEmpty then (none, [])
  else providersLoop url s.providers 1

/-- The value a single provider attempt usably yields: its returned URL when
non-None and non-empty, and nothing when it returns a falsy value or raises —
returning nothing and raising are identified, as the claim demands. -/
def attemptValue (p : Provider) (url : String) : Option String :=
  match p.call url with
  | Call.ok (some v) => if v = "" then none else some v
  | Call.ok none => none
  | Call.exn => none

/-- The first provider (0-based position, with its usable value and name)
whose attempt succeeds. -/
def firstSuccess (url : String) : List Provider → Option (Nat × String × String)
  | [] => none
  | p :: ps =>
    match attemptValue p url with
    | some v => some (0, v, p.name)
    | none => (firstSuccess url ps).map fun r => (r.1 + 1, r.2)

/-- C4: Service.get_video_url tries providers in list order, invoking each at
most once: if the first provider whose attempt usably succeeds is at 0-based
position k with value v and name n, the result is (v, 1+k, n) — the 1-based
rank and name of that provider — and exactly providers 1..k+1 were invoked,
each once, in order; if every provider fails (returns a falsy value or
raises, treated identically by attemptValue), the result is None and every
provider was invoked exactly once. -/
theorem provider_fallback_first_success (s : Service) (url : String) :
    s.get_video_url url =
      match firstSuccess url s.providers with
      | some (k, v, n) => (some (v, 1 + k, n), providerCallsFrom 1 (k + 1))
      | none => (none, providerCallsFrom 1 s.providers.length) := by
  have main : ∀ (ps : List Provider) (i : Nat),
      providersLoop url ps i =
        match firstSuccess url ps with
        | some (k, v, n) => (some (v, i + k, n), providerCallsFrom i (k + 1))
        | none => (none, providerCallsFrom i ps.length) := by
    intro ps
    induction ps with
    | nil => intro i; rfl
    | cons p ps ih =>
      intro i
      have cont : (match firstSuccess url ps with
          | some (k, v, n) => (some (v, (i + 1) + k, n), providerCallsFrom (i + 1) (k + 1))
          | none => (none, providerCallsFrom (i + 1) ps.length) : Option (String × Nat × String) × List SEvent).1
            = (providersLoop url ps (i + 1)).1 ∧
          (match firstSuccess url ps with
          | some (k, v, n) => (some (v, (i + 1) + k, n), providerCallsFrom (i + 1) (k + 1))
          | none => (none, providerCallsFrom (i + 1) ps.length) : Option (String × Nat × String) × List SEvent).2
            = (providersLoop url ps (i + 1)).2 := by
        rw [ih (i + 1)]; exact ⟨rfl, rfl⟩
      rcases hc : p.call url with v | _
      case ok =>
        cases v with
        | some s0 =>
          by_cases hv : s0 = ""
          · simp only [providersLoop, firstSuccess, attemptValue, hc, hv, if_pos rfl, ite_true,
              if_true, ih (i + 1)]
            cases hf : firstSuccess url ps with
            | none => simp [hf, providerCallsFrom]
            | some r =>
              rcases r with ⟨k, v', n⟩
              have harith : i + 1 + k = i + (k + 1) := by omega
              simp [hf, providerCallsFrom, harith]
          · simp only [providersLoop, firstSuccess, attemptValue, hc, if_neg hv]
            simp [providerCallsFrom, Nat.add_zero]
        | none =>
          simp only [providersLoop, firstSuccess, attemptValue, hc, ih (i + 1)]
          cases hf : firstSuccess url ps with
          | none => simp [hf, providerCallsFrom]
          | some r =>
            rcases r with ⟨k, v', n⟩
            have harith : i + 1 + k = i + (k + 1) := by omega
            simp [hf, providerCallsFrom, harith]
      case exn =>
        simp only [providersLoop, firstSuccess, attemptValue, hc, ih (i + 1)]
        cases hf : firstSuccess url ps with
        | none => simp [hf, providerCallsFrom]
        | some r =>
          rcases r with ⟨k, v', n⟩
          have harith : i + 1 + k = i + (k + 1) := by omega
          simp [hf, providerCallsFrom, harith]
  rw [Service.get_video_url]
  cases hps : s.providers with
  | nil => simp [hps, firstSuccess, providerCallsFrom]
  | cons p ps => simpa [hps] using main (p :: ps) 1

/-- The three outcomes of ServiceRouter.get_video_url (src/service_router.py
lines 34-88): the success tuple (video_url, service_name, provider_num,
provider_name), the "providers_failed" sentinel, and None for no pattern
match. -/
inductive RouteOutcome where
  | resolved (video_url : String) (service_name : Option String)
      (provider_num : Nat) (provider_name : String)
  | providersFailed
  | noMatch
deriving Repr, DecidableEq

/-- Router invocation events: the 1-based position of the service whose
extract_url, respectively get_video_url (resolve), was called. -/
inductive REvent where
  | extractCalled (i : Nat)
  | resolveCalled (i : Nat)
deriving Repr, DecidableEq

/-- The consecutive extraction events extractCalled i, ..., extractCalled
(i+n-1). -/
def extractsFrom (i : Nat) : Nat → List REvent
  | 0 => []
  | n + 1 => REvent.extractCalled i :: extractsFrom (i + 1) n

/-- The service loop of ServiceRouter.get_video_url (source lines 58-88),
instrumented with a trace: for each service in order, call extract_url; the
source's truthiness check (if url: on line 65) treats both None and an empty
extracted string as "no URL match for this service", falling through to the
next service; on a truthy (non-empty) extraction, call that service's
get_video_url and return immediately — the success tuple if a provider
succeeded, the "providers_failed" sentinel otherwise; when no service yields
a truthy URL, return None. -/
def routerLoop (text : String) : List Service → Nat → RouteOutcome × List REvent
  | [], _ => (RouteOutcome.noMatch, [])
  | s :: ss, i =>
    match s.extract_url text with
    | some url =>
      if url = "" then
        let r := routerLoop text ss (i + 1)
        (r.1, REvent.extractCalled i :: r.2)
      else
        match (s.get_video_url url).1 with
        | some (v, pn, pname) =>
          (RouteOutcome.resolved v s.SERVICE_NAME pn pname,
           [REvent.extractCalled i, REvent.resolveCalled i])
        | none =>
          (RouteOutcome.providersFailed, [REvent.extractCalled i, REvent.resolveCalled i])
    | none =>
      let r := routerLoop text ss (i + 1)
      (r.1, REvent.extractCalled i :: r.2)

/-- ServiceRouter state: the service list, in (descending-priority) order as
supplied at construction. -/
structure ServiceRouter where
  services : List Service

/-- ServiceRouter.get_video_url (source lines 34-88): None for absent or
empty text (the falsy check on line 49), otherwise the service loop from
1-based position 1. -/
def ServiceRouter.get_video_url (sr : ServiceRouter) (text : Option String) :
    RouteOutcome × List REvent :=
  match text with
  | none => (RouteOutcome.noMatch, [])
  | some t => if t = "" then (RouteOutcome.noMatch, []) else routerLoop t sr.services 1

/-- The first service (0-based position, with the extracted URL) whose pattern
extraction yields a truthy — non-empty — URL substring of the text; a service
extracting the empty string is passed over like a non-match, as the router's
if url: check does. -/
def firstMatch (text : String) : List Service → Option (Nat × Service × String)
  | [] => none
  | s :: ss =>
    match s.extract_url text with
    | some url =>
      if url = "" then (firstMatch text ss).map fun r => (r.1 + 1, r.2)
      else some (0, s, url)
    | none => (firstMatch text ss).map fun r => (r.1 + 1, r.2)

/-- C3 (amended): the router iterates services in list order and commits to
the first service whose pattern extraction yields a truthy (non-empty) URL:
if that service is at 0-based position k with extracted URL url, the outcome
is that service's resolve outcome — the resolved tuple when its provider
chain succeeds, the providers-failed sentinel when it fails — and the trace
shows pattern extraction invoked exactly on services 1..k+1 and resolve
invoked exactly on service k+1, so no later service's extraction or resolve
ever runs; a service whose extraction yields the empty string is skipped
exactly like a non-match (the if url: truthiness check on line 65); when no
service yields a truthy URL, the outcome is noMatch with every service's
extraction invoked once. -/
theorem router_first_match_commit (sr : ServiceRouter) (t : String) :
    sr.get_video_url (some t) =
      if t = "" then (RouteOutcome.noMatch, [])
      else
        match firstMatch t sr.services with
        | some (k, s, url) =>
          ((match (s.get_video_url url).1 with
            | some (v, pn, pname) => RouteOutcome.resolved v s.SERVICE_NAME pn pname
            | none => RouteOutcome.providersFailed),
           extractsFrom 1 (k + 1) ++ [REvent.resolveCalled (1 + k)])
        | none => (RouteOutcome.noMatch, extractsFrom 1 sr.services.length) := by
  have main : ∀ (ss : List Service) (i : Nat),
      routerLoop t ss i =
        match firstMatch t ss with
        | some (k, s, url) =>
          ((match (s.get_video_url url).1 with
            | some (v, pn, pname) => RouteOutcome.resolved v s.SERVICE_NAME pn pname
            | none => RouteOutcome.providersFailed),
           extractsFrom i (k + 1) ++ [REvent.resolveCalled (i + k)])
        | none => (RouteOutcome.noMatch, extractsFrom i ss.length) := by
    intro ss
    induction ss with
    | nil => intro i; rfl
    | cons s ss ih =>
      intro i
      cases hx : s.extract_url t with
      | some url =>
        by_cases hu : url = ""
        · simp only [routerLoop, firstMatch, hx, if_pos hu, ih (i + 1)]
          cases hf : firstMatch t ss with
          | none => simp [hf, extractsFrom]
          | some r =>
            rcases r with ⟨k, s', url'⟩
            have harith : i + 1 + k = i + (k + 1) := by omega
            simp [hf, extractsFrom, harith]
        · simp only [routerLoop, firstMatch, hx, if_neg hu]
          cases hr : (s.get_video_url url).1 with
          | some r =>
            rcases r with ⟨v, pn, pname⟩
            simp [hr, extractsFrom, Nat.add_zero]
          | none => simp [hr, extractsFrom, Nat.add_zero]
      | none =>
        simp only [routerLoop, firstMatch, hx, ih (i + 1)]
        cases hf : firstMatch t ss with
        | none => simp [hf, extractsFrom]
        | some r =>
          rcases r with ⟨k, s', url⟩
          have harith : i + 1 + k = i + (k + 1) := by omega
          simp [hf, extractsFrom, harith]
  rw [ServiceRouter.get_video_url]
  by_cases ht : t = ""
  · simp [ht]
  · simp only [if_neg ht]
    exact main sr.services 1

/-- A concrete provider that succeeds with a fixed download URL. -/
def provOk : Provider :=
  { name := "ok-provider", call := fun _ => Call.ok (some "http://video") }

/-- A concrete service whose pattern matches only the empty substring of any
non-empty text — re.search succeeds but match.group(0) is "", as with a
star-quantified regex. -/
def svcEmptyMatch : Service :=
  { SERVICE_NAME := some "EMPTY"
    URL_PATTERN := some fun _ => some ""
    providers := [provOk] }

/-- A concrete service whose pattern extracts a real URL and whose single
provider succeeds. -/
def svcReal : Service :=
  { SERVICE_NAME := some "REAL"
    URL_PATTERN := some fun _ => some "http://t.example"
    providers := [provOk] }

/-- C3 counterexample: the first service's pattern does match a substring of
the text (extract_url returns some "", the empty substring), yet the router
does not return that service's resolve outcome: the if url: truthiness check
(src/service_router.py line 65) treats the empty extraction as no match, so
the second service's extraction and resolve are invoked and the second
service's outcome is returned — contradicting the claim that the first
matching service's resolve outcome is returned immediately and that no later
service's extraction or resolve is ever invoked. -/
theorem empty_extraction_does_not_commit_router :
    svcEmptyMatch.extract_url "some text" = some "" ∧
    ServiceRouter.get_video_url { services := [svcEmptyMatch, svcReal] } (some "some text")
      = (RouteOutcome.resolved "http://video" (some "REAL") 1 "ok-provider",
         [REvent.extractCalled 1, REvent.extractCalled 2, REvent.resolveCalled 2]) :=
  ⟨rfl, rfl⟩

/-- C10: routing with absent text or with the empty string returns the
no-match outcome with an empty trace — no service's pattern extraction or
resolve is invoked. -/
theorem router_falsy_text_no_match (sr : ServiceRouter) :
    sr.get_video_url none = (RouteOutcome.noMatch, []) ∧
    sr.get_video_url (some "") = (RouteOutcome.noMatch, []) :=
  ⟨rfl, rfl⟩

/-- A Telegram message as seen by the trigger registry: only its optional text
is inspected by check_triggers itself; all other fields are consumed only
inside concrete triggers, which are modelled as opaque functions. -/
structure Message where
  text : Option String
deriving Repr, DecidableEq

/-- A trigger (BaseTrigger, src/ai_handler_pipeline/triggers/__init__.py lines
18-64): the predicate should_trigger and the extractor extract_user_message,
both of which may raise; extract_user_message returns the extracted payload or
None when invalid. -/
structure Trigger where
  name : String
  priority : Int := 50
  shouldTrigger : Message → Call Bool
  extractUserMessage : String → Call (Option String)

/-- Trigger-checking invocation events: the 1-based position of the trigger
whose predicate, respectively extractor, was called. -/
inductive TEvent where
  | predicateCalled (i : Nat)
  | extractorCalled (i : Nat)
deriving Repr, DecidableEq

/-- The loop of TriggerRegistry.check_triggers (src/ai_handler_pipeline/
trigger_registry.py lines 75-92), instrumented with a trace.  Each iteration
is one try block wrapping both the predicate and the extractor: a matching
predicate leads to extraction, a non-None payload returns (trigger, payload),
a None payload returns (trigger, "") — the matched-but-empty help signal; an
exception raised by either call is logged and the loop continues with the
next trigger. -/
def checkTriggersLoop (m : Message) (s : String) :
    List Trigger → Nat → Option (Trigger × String) × List TEvent
  | [], _ => (none, [])
  | t :: ts, i =>
    match t.shouldTrigger m with
    | Call.ok true =>
      match t.extractUserMessage s with
      | Call.ok (some um) =>
        (some (t, um), [TEvent.predicateCalled i, TEvent.extractorCalled i])
      | Call.ok none =>
        (some (t, ""), [TEvent.predicateCalled i, TEvent.extractorCalled i])
      | Call.exn =>
        let r := checkTriggersLoop m s ts (i + 1)
        (r.1, TEvent.predicateCalled i :: TEvent.extractorCalled i :: r.2)
    | Call.ok false =>
      let r := checkTriggersLoop m s ts (i + 1)
      (r.1, TEvent.predicateCalled i :: r.2)
    | Call.exn =>
      let r := checkTriggersLoop m s ts (i + 1)
      (r.1, TEvent.predicateCalled i :: r.2)

/-- TriggerRegistry.check_triggers (source lines 60-92): None for an absent
message or falsy (absent or empty) text, otherwise the trigger loop from
1-based position 1. -/
def checkTriggers (triggers : List Trigger) (msg : Option Message) :
    Option (Trigger × String) × List TEvent :=
  match msg with
  | none => (none, [])
  | some m =>
    match m.text with
    | none => (none, [])
    | some s => if s = "" then (none, []) else checkTriggersLoop m s triggers 1

/-- The payload with which a single trigger ends the loop: some payload when
its predicate returns True and its extractor returns without raising (None is
turned into the empty help payload), and nothing when the predicate returns
False or either call raises. -/
def triggerHit (m : Message) (s : String) (t : Trigger) : Option String :=
  match t.shouldTrigger m with
  | Call.ok true =>
    match t.extractUserMessage s with
    | Call.ok (some um) => some um
    | Call.ok none => some ""
    | Call.exn => none
  | Call.ok false => none
  | Call.exn => none

/-- The events one non-ending loop iteration contributes: the predicate is
always called; the extractor is called exactly when the predicate returned
True. -/
def triggerEvents (m : Message) (_s : String) (t : Trigger) (i : Nat) : List TEvent :=
  match t.shouldTrigger m with
  | Call.ok true => [TEvent.predicateCalled i, TEvent.extractorCalled i]
  | Call.ok false => [TEvent.predicateCalled i]
  | Call.exn => [TEvent.predicateCalled i]

/-- The first trigger (0-based position, with its payload) that ends the
loop. -/
def firstHit (m : Message) (s : String) : List Trigger → Option (Nat × Trigger × String)
  | [] => none
  | t :: ts =>
    match triggerHit m s t with
    | some pay => some (0, t, pay)
    | none => (firstHit m s ts).map fun r => (r.1 + 1, r.2)

/-- The concatenated events of the first n loop iterations starting at 1-based
position i. -/
def triggersTraceFrom (m : Message) (s : String) :
    List Trigger → Nat → Nat → List TEvent
  | _, _, 0 => []
  | [], _, _ => []
  | t :: ts, i, n + 1 => triggerEvents m s t i ++ triggersTraceFrom m s ts (i + 1) n

/-- A concrete trigger whose predicate matches but whose extractor raises. -/
def trigExnExtract : Trigger :=
  { name := "exn-extract"
    shouldTrigger := fun _ => Call.ok true
    extractUserMessage := fun _ => Call.exn }

/-- A concrete trigger whose predicate matches and whose extractor returns a
payload. -/
def trigPlain : Trigger :=
  { name := "plain"
    shouldTrigger := fun _ => Call.ok true
    extractUserMessage := fun _ => Call.ok (some "x") }

/-- A concrete message with non-empty text. -/
def msgHi : Message := { text := some "hi" }

/-- C9 counterexample: checking a trigger list whose first trigger's predicate
matches but whose extractor raises.  The source's try block wraps the
extractor too, so the raised extraction is caught and the loop continues: the
second trigger is consulted (predicateCalled 2 appears in the trace) and even
produces the final result, contradicting the claim that no later trigger is
ever consulted once a predicate has matched. -/
theorem later_trigger_consulted_after_predicate_match :
    trigExnExtract.shouldTrigger msgHi = Call.ok true ∧
    checkTriggers [trigExnExtract, trigPlain] (some msgHi)
      = (some (trigPlain, "x"),
         [TEvent.predicateCalled 1, TEvent.extractorCalled 1,
          TEvent.predicateCalled 2, TEvent.extractorCalled 2]) :=
  ⟨rfl, rfl⟩

/-- C9 (amended): absent messages and falsy text yield the no-match outcome
(None) with nothing consulted; otherwise the loop commits to the first trigger
that ends it — the first whose predicate returns True and whose extractor
returns without raising — pairing it with the extracted payload, where an
invalid (None) extraction yields the distinct matched-but-empty outcome
(trigger, ""), never conflated with the no-match outcome None; triggers whose
predicate returns False or whose predicate or extractor raises are skipped,
and once the loop commits at position k+1 no later trigger's predicate or
extractor is invoked (the trace is exactly that of iterations 1..k+1); when no
trigger ends the loop the outcome is None with every trigger consulted. -/
theorem check_triggers_commits_to_first_hit (triggers : List Trigger) (s : String) :
    checkTriggers triggers none = (none, []) ∧
    checkTriggers triggers (some { text := none }) = (none, []) ∧
    checkTriggers triggers (some { text := some s }) =
      (if s = "" then ((none, []) : Option (Trigger × String) × List TEvent)
       else
        match firstHit { text := some s } s triggers with
        | some (k, t, pay) =>
          (some (t, pay), triggersTraceFrom { text := some s } s triggers 1 (k + 1))
        | none =>
          (none, triggersTraceFrom { text := some s } s triggers 1 triggers.length)) := by
  refine ⟨rfl, rfl, ?_⟩
  by_cases hs : s = ""
  · simp [checkTriggers, hs]
  · have main : ∀ (m : Message) (ts : List Trigger) (i : Nat),
        checkTriggersLoop m s ts i =
          match firstHit m s ts with
          | some (k, t, pay) => (some (t, pay), triggersTraceFrom m s ts i (k + 1))
          | none => (none, triggersTraceFrom m s ts i ts.length) := by
      intro m ts
      induction ts with
      | nil => intro i; rfl
      | cons t ts ih =>
        intro i
        cases hp : t.shouldTrigger m with
        | ok b =>
          cases b with
          | true =>
            cases he : t.extractUserMessage s with
            | ok pay =>
              cases pay with
              | some um =>
                simp [checkTriggersLoop, firstHit, triggerHit, triggerEvents,
                  triggersTraceFrom, hp, he]
              | none =>
                simp [checkTriggersLoop, firstHit, triggerHit, triggerEvents,
                  triggersTraceFrom, hp, he]
            | exn =>
              simp only [checkTriggersLoop, firstHit, triggerHit, hp, he, ih (i + 1)]
              cases hf : firstHit m s ts with
              | none => simp [hf, triggersTraceFrom, triggerEvents, hp]
              | some r =>
                rcases r with ⟨k, t', pay⟩
                simp [hf, triggersTraceFrom, triggerEvents, hp]
          | false =>
            simp only [checkTriggersLoop, firstHit, triggerHit, hp, ih (i + 1)]
            cases hf : firstHit m s ts with
            | none => simp [hf, triggersTraceFrom, triggerEvents, hp]
            | some r =>
              rcases r with ⟨k, t', pay⟩
              simp [hf, triggersTraceFrom, triggerEvents, hp]
        | exn =>
          simp only [checkTriggersLoop, firstHit, triggerHit, hp, ih (i + 1)]
          cases hf : firstHit m s ts with
          | none => simp [hf, triggersTraceFrom, triggerEvents, hp]
          | some r =>
            rcases r with ⟨k, t', pay⟩
            simp [hf, triggersTraceFrom, triggerEvents, hp]
    simp only [checkTriggers, if_neg hs]
    exact main { text := some s } triggers 1

/-- The process environment as consulted through os.getenv. -/
abbrev Env := String → Option String

/-- os.getenv with a default (os.getenv(key, default)). -/
def getenvD (env : Env) (k d : String) : String := (env k).getD d

/-- Python truthiness of an optional string: None and the empty string are
falsy. -/
def truthyStr : Option String → Option String
  | some s => if s = "" then none else some s
  | none => none

/-- Python "a or b" on an optional string and a fallback. -/
def pyOr (o : Option String) (d : String) : String :=
  match truthyStr o with
  | some s => s
  | none => d

/-- Python str.lower() restricted to ASCII, modelled over the character
list (String.map does not reduce in the kernel). -/
def pyLower (s : String) : String := String.mk (s.data.map Char.toLower)

/-- Digits-only accumulator for pyInt. -/
def parseDigitsAux : List Char → Nat → Option Nat
  | [], acc => some acc
  | c :: cs, acc =>
    if c.isDigit then parseDigitsAux cs (acc * 10 + (c.toNat - 48)) else none

/-- A non-empty all-digit character list read as a Nat. -/
def parseDigits : List Char → Option Nat
  | [] => none
  | c :: cs => parseDigitsAux (c :: cs) 0

/-- Model of the Python built-in int() on decimal string literals: optional
surrounding whitespace, an optional sign, then a non-empty digit run; any
other shape raises ValueError, modelled as none. -/
def pyInt (s : String) : Option Int :=
  let cs := ((s.toList.dropWhile Char.isWhitespace).reverse.dropWhile
    Char.isWhitespace).reverse
  match cs with
  | '-' :: rest => (parseDigits rest).map fun n => -(n : Int)
  | '+' :: rest => (parseDigits rest).map fun n => (n : Int)
  | _ => (parseDigits cs).map fun n => (n : Int)

/-- The clamp max(0, min(100, n)) applied to every parsed priority override
(src/pipeline/__init__.py line 326, src/video_services/__init__.py lines 71
and 199). -/
def clampPriority (n : Int) : Int := max 0 (min 100 n)

/-- The priority a unit ends up with given an optional priority environment
variable name: the declared default when the variable name is falsy, unset or
set to the empty string, or when its value fails to parse as an integer; the
clamped parsed value otherwise.  This is the shared shape of the priority
blocks of load_handlers_from_env (lines 321-329), _load_service_priority
(lines 64-73) and load_providers_from_env (lines 194-201). -/
def priorityFromVar (env : Env) (var : Option String) (dflt : Int) : Int :=
  match var with
  | none => dflt
  | some v =>
    if v = "" then dflt
    else
      match env v with
      | none => dflt
      | some s =>
        if s = "" then dflt
        else
          match pyInt s with
          | some n => clampPriority n
          | none => dflt

/-- Stable insertion of x into a descending-priority list: x goes before the
first element whose key is at most x's key, so elements with equal keys keep
their original relative order. -/
def insertDesc {α : Type} (key : α → Int) (x : α) : List α → List α
  | [] => [x]
  | y :: ys => if key y ≤ key x then x :: y :: ys else y :: insertDesc key x ys

/-- Stable sort by descending key, modelling Python's stable
list.sort(key=..., reverse=True). -/
def sortDesc {α : Type} (key : α → Int) : List α → List α
  | [] => []
  | x :: xs => insertDesc key x (sortDesc key xs)

/-- Membership in an insertion. -/
theorem mem_insertDesc {α : Type} (key : α → Int) (x a : α) (l : List α) :
    a ∈ insertDesc key x l ↔ a = x ∨ a ∈ l := by
  induction l with
  | nil => simp [insertDesc]
  | cons y ys ih =>
    by_cases hk : key y ≤ key x
    · simp [insertDesc, if_pos hk, List.mem_cons]
    · simp only [insertDesc, if_neg hk, List.mem_cons, ih]
      tauto

/-- Insertion preserves descending sortedness. -/
theorem pairwise_insertDesc {α : Type} (key : α → Int) (x : α) (l : List α)
    (h : l.Pairwise fun a b => key b ≤ key a) :
    (insertDesc key x l).Pairwise fun a b => key b ≤ key a := by
  induction l with
  | nil => simp [insertDesc]
  | cons y ys ih =>
    rw [List.pairwise_cons] at h
    obtain ⟨hy, hys⟩ := h
    by_cases hk : key y ≤ key x
    · rw [insertDesc, if_pos hk]
      refine List.Pairwise.cons ?_ (List.Pairwise.cons hy hys)
      intro z hz
      rcases List.mem_cons.mp hz with rfl | hz
      · exact hk
      · exact le_trans (hy z hz) hk
    · rw [insertDesc, if_neg hk]
      refine List.Pairwise.cons ?_ (ih hys)
      intro z hz
      rcases (mem_insertDesc key x z ys).mp hz with rfl | hz
      · exact le_of_lt (lt_of_not_le hk)
      · exact hy z hz
/-- sortDesc yields a descending-priority list. -/
theorem pairwise_sortDesc {α : Type} (key : α → Int) (l : List α) :
    (sortDesc key l).Pairwise fun a b => key b ≤ key a := by
  induction l with
  | nil => simp [sortDesc]
  | cons x xs ih => exact pairwise_insertDesc key x _ ih

/-- A discovered handler class (discover_handlers output): its HANDLER_NAME
class attribute, whether calling the constructor succeeds, and the instance
it constructs — whose priority field is the class's DEFAULT_PRIORITY, as set
by PipelineHandler.__init__. -/
structure HandlerClass where
  HANDLER_NAME : Option String
  constructs : Bool
  inst : Handler

/-- One iteration of the loop of load_handlers_from_env
(src/pipeline/__init__.py lines 306-335): construction failure is caught and
yields nothing; with a truthy HANDLER_NAME the {NAME}_ENABLED variable can
disable the handler and the {NAME}_PRIORITY variable can override its
priority; without a truthy HANDLER_NAME neither variable is consulted. -/
def loadOneHandler (env : Env) (c : HandlerClass) : Option Handler :=
  if c.constructs = false then none
  else
    match truthyStr c.HANDLER_NAME with
    | none => some c.inst
    | some nm =>
      if pyLower (getenvD env (nm ++ "_ENABLED") "true") = "false" then none
      else
        some { c.inst with
          priority := priorityFromVar env (some (nm ++ "_PRIORITY")) c.inst.priority }

/-- load_handlers_from_env (source lines 274-344): empty discovery returns
the empty list; otherwise the per-class loop followed by the stable
descending-priority sort. -/
def load_handlers_from_env (env : Env) (classes : List HandlerClass) : List Handler :=
  if classes.isEmpty then []
  else sortDesc (fun h : Handler => h.priority) (classes.filterMap (loadOneHandler env))

/-- A discovered trigger class (discover_triggers output): its TRIGGER_NAME
class attribute, whether construction succeeds, and the constructed instance
— whose priority field is the class's DEFAULT_PRIORITY, as set by
BaseTrigger.__init__. -/
structure TriggerClass where
  TRIGGER_NAME : Option String
  constructs : Bool
  inst : Trigger

/-- One iteration of the loop of load_triggers_from_env
(src/ai_handler_pipeline/triggers/__init__.py lines 126-144): construction
failure is caught and yields nothing; with a truthy TRIGGER_NAME the
{NAME}_ENABLED variable can disable the trigger.  No priority variable is
consulted: the instance keeps its declared default priority. -/
def loadOneTrigger (env : Env) (c : TriggerClass) : Option Trigger :=
  if c.constructs = false then none
  else
    match truthyStr c.TRIGGER_NAME with
    | none => some c.inst
    | some nm =>
      if pyLower (getenvD env (nm ++ "_ENABLED") "true") = "false" then none
      else some c.inst

/-- load_triggers_from_env (source lines 101-150): empty discovery returns
the empty list; otherwise the per-class loop followed by the stable
descending-priority sort. -/
def load_triggers_from_env (env : Env) (classes : List TriggerClass) : List Trigger :=
  if classes.isEmpty then []
  else sortDesc (fun t : Trigger => t.priority) (classes.filterMap (loadOneTrigger env))

/-- A discovered provider class (discover_providers output): its
PROVIDER_NAME, API_KEY_ENV_VAR and PRIORITY_ENV_VAR class attributes, whether
construction with the API key succeeds, and the constructed instance — whose
priority field is the class's DEFAULT_PRIORITY, as set by
BaseProvider.__init__. -/
structure ProviderClass where
  PROVIDER_NAME : Option String
  API_KEY_ENV_VAR : Option String
  PRIORITY_ENV_VAR : Option String
  constructs : Bool
  inst : Provider

/-- Resolution of the two environment-variable names for a provider class
(src/video_services/__init__.py lines 173-184): with a truthy PROVIDER_NAME
the names are API_KEY_ENV_VAR or {NAME}_API_KEY and PRIORITY_ENV_VAR or
{NAME}_PRIORITY; otherwise a truthy explicit API_KEY_ENV_VAR is used with
the explicit PRIORITY_ENV_VAR; otherwise the class is skipped. -/
def providerEnvVars (c : ProviderClass) : Option (String × Option String) :=
  match truthyStr c.PROVIDER_NAME with
  | some nm =>
    some (pyOr c.API_KEY_ENV_VAR (nm ++ "_API_KEY"),
      some (pyOr c.PRIORITY_ENV_VAR (nm ++ "_PRIORITY")))
  | none =>
    match truthyStr c.API_KEY_ENV_VAR with
    | some ak => some (ak, c.PRIORITY_ENV_VAR)
    | none => none

/-- One iteration of the loop of load_providers_from_env (source lines
172-208): a class with no usable env-var names is skipped; a falsy API key
means the provider is simply not instantiated; construction failure is caught
and yields nothing; otherwise the priority variable, when truthy and set to a
parsable value, overrides the declared default. -/
def loadOneProvider (env : Env) (c : ProviderClass) : Option Provider :=
  match providerEnvVars c with
  | none => none
  | some (akVar, prVar) =>
    match env akVar with
    | none => none
    | some key =>
      if key = "" then none
      else if c.constructs = false then none
      else some { c.inst with priority := priorityFromVar env prVar c.inst.priority }

/-- load_providers_from_env (source lines 151-213): empty discovery returns
the empty list; otherwise the per-class loop followed by the stable
descending-priority sort. -/
def load_providers_from_env (env : Env) (classes : List ProviderClass) : List Provider :=
  if classes.isEmpty then []
  else sortDesc (fun p : Provider => p.priority) (classes.filterMap (loadOneProvider env))

/-- A discovered service class (discover_services output): its SERVICE_NAME,
URL_PATTERN and DEFAULT_PRIORITY class attributes, the provider classes found
in its providers folder, and whether construction succeeds. -/
structure ServiceClass where
  SERVICE_NAME : Option String
  URL_PATTERN : Option (String → Option String)
  DEFAULT_PRIORITY : Int := 50
  provider_classes : List ProviderClass
  constructs : Bool

/-- One iteration of the loop of load_services_from_env (source lines
318-333): construction failure (BaseService.__init__, which also applies the
SERVICE_NAME-keyed priority override of _load_service_priority) is caught and
yields nothing; the service's providers are loaded from its provider classes,
and a service with no loaded providers is skipped. -/
def loadOneService (env : Env) (c : ServiceClass) : Option Service :=
  if c.constructs = false then none
  else if (load_providers_from_env env c.provider_classes).isEmpty then none
  else
    some { SERVICE_NAME := c.SERVICE_NAME
           URL_PATTERN := c.URL_PATTERN
           priority := priorityFromVar env
             ((truthyStr c.SERVICE_NAME).map fun nm => nm ++ "_PRIORITY")
             c.DEFAULT_PRIORITY
           providers := load_providers_from_env env c.provider_classes }

/-- load_services_from_env (source lines 296-345): raises ValueError when
discovery finds no service classes; raises ValueError when no service could
be initialized; otherwise returns the loaded services sorted by descending
priority. -/
def load_services_from_env (env : Env) (classes : List ServiceClass) :
    Except String (List Service) :=
  if classes.isEmpty then Except.error "No services found in video_services folder!"
  else if (classes.filterMap (loadOneService env)).isEmpty then
    Except.error "No services could be initialized! Check your environment variables."
  else
    Except.ok (sortDesc (fun s : Service => s.priority)
      (classes.filterMap (loadOneService env)))

/-- insertDesc never produces the empty list. -/
theorem insertDesc_ne_nil {α : Type} (key : α → Int) (x : α) (l : List α) :
    insertDesc key x l ≠ [] := by
  cases l with
  | nil => simp [insertDesc]
  | cons y ys => rw [insertDesc]; split <;> simp

/-- A list element mapped to none by f contributes nothing to filterMap. -/
theorem filterMap_drop_none {A B : Type} (f : A → Option B) (cs1 cs2 : List A)
    (bad : A) (h : f bad = none) :
    (cs1 ++ bad :: cs2).filterMap f = (cs1 ++ cs2).filterMap f := by
  simp [List.filterMap_append, List.filterMap_cons, h]

/-- Dropping a none-mapped element commutes with the shared
guard-filterMap-sort shape of the three list-returning loaders. -/
theorem sorted_load_drop {A B : Type} (key : B → Int) (f : A → Option B)
    (cs1 cs2 : List A) (bad : A) (h : f bad = none) :
    (if (cs1 ++ bad :: cs2).isEmpty then [] else
      sortDesc key ((cs1 ++ bad :: cs2).filterMap f))
      = (if (cs1 ++ cs2).isEmpty then [] else
        sortDesc key ((cs1 ++ cs2).filterMap f)) := by
  rw [filterMap_drop_none f cs1 cs2 bad h]
  have hA : (cs1 ++ bad :: cs2).isEmpty = false := by cases cs1 <;> rfl
  by_cases hcs : (cs1 ++ cs2).isEmpty = true
  · have hnil : cs1 = [] ∧ cs2 = [] := by
      cases cs1 <;> cases cs2 <;> simp_all
    obtain ⟨rfl, rfl⟩ := hnil
    simp [hA, sortDesc]
  · simp [hA, hcs]

/-- C6 (amended): for Handler, Service and Provider units, loading consults
the {NAME}_PRIORITY variable keyed by the unit's truthy configuration name: a
set, non-empty, integer value overrides the declared default priority and is
clamped to the range 0-100, while a non-integer value is ignored and the
default kept (priorityFromVar is the common shape, and clampPriority stays
within 0-100); every loaded set is sorted by the resulting priorities in
descending order, so a unit with priority 5 can never precede one with
priority at least 6.  Trigger loading, by contrast, consults only
{NAME}_ENABLED and never a priority variable: a loaded trigger always keeps
its declared default priority. -/
theorem priority_override_semantics (env : Env) :
    (∀ n : Int, 0 ≤ clampPriority n ∧ clampPriority n ≤ 100) ∧
    (∀ (v : String) (d : Int) (s : String), v ≠ "" → env v = some s → s ≠ "" →
      ((∀ n : Int, pyInt s = some n →
          priorityFromVar env (some v) d = clampPriority n) ∧
        (pyInt s = none → priorityFromVar env (some v) d = d))) ∧
    (∀ (c : HandlerClass) (h : Handler), loadOneHandler env c = some h →
      h.priority = (match truthyStr c.HANDLER_NAME with
        | some nm => priorityFromVar env (some (nm ++ "_PRIORITY")) c.inst.priority
        | none => c.inst.priority)) ∧
    (∀ (c : ServiceClass) (s : Service), loadOneService env c = some s →
      s.priority = priorityFromVar env
        ((truthyStr c.SERVICE_NAME).map fun nm => nm ++ "_PRIORITY")
        c.DEFAULT_PRIORITY) ∧
    (∀ (c : ProviderClass) (p : Provider) (akVar : String) (prVar : Option String),
      providerEnvVars c = some (akVar, prVar) → loadOneProvider env c = some p →
      p.priority = priorityFromVar env prVar c.inst.priority) ∧
    (∀ (c : TriggerClass) (t : Trigger), loadOneTrigger env c = some t →
      t.priority = c.inst.priority) ∧
    (∀ classes : List HandlerClass,
      (load_handlers_from_env env classes).Pairwise fun a b => b.priority ≤ a.priority) ∧
    (∀ classes : List TriggerClass,
      (load_triggers_from_env env classes).Pairwise fun a b => b.priority ≤ a.priority) ∧
    (∀ classes : List ProviderClass,
      (load_providers_from_env env classes).Pairwise fun a b => b.priority ≤ a.priority) ∧
    (∀ (classes : List ServiceClass) (l : List Service),
      load_services_from_env env classes = Except.ok l →
      l.Pairwise fun a b => b.priority ≤ a.priority) := by
  refine ⟨?_, ?_, ?_, ?_, ?_, ?_, ?_, ?_, ?_, ?_⟩
  · intro n
    constructor
    · exact le_max_left 0 _
    · exact max_le (by norm_num) (min_le_left 100 n)
  · intro v d s hv henv hs
    constructor
    · intro n hp
      simp [priorityFromVar, hv, henv, hs, hp]
    · intro hp
      simp [priorityFromVar, hv, henv, hs, hp]
  · intro c h hload
    unfold loadOneHandler at hload
    by_cases hcon : c.constructs = false
    · rw [if_pos hcon] at hload; exact absurd hload (by simp)
    · rw [if_neg hcon] at hload
      cases hnm : truthyStr c.HANDLER_NAME with
      | none =>
        simp only [hnm, Option.some.injEq] at hload
        simp [hnm, ← hload]
      | some nm =>
        simp only [hnm] at hload
        by_cases hen : pyLower (getenvD env (nm ++ "_ENABLED") "true") = "false"
        · rw [if_pos hen] at hload; exact absurd hload (by simp)
        · rw [if_neg hen] at hload
          simp only [Option.some.injEq] at hload
          simp [hnm, ← hload]
  · intro c s hload
    unfold loadOneService at hload
    by_cases hcon : c.constructs = false
    · rw [if_pos hcon] at hload; exact absurd hload (by simp)
    · rw [if_neg hcon] at hload
      by_cases hpv : (load_providers_from_env env c.provider_classes).isEmpty = true
      · rw [if_pos hpv] at hload; exact absurd hload (by simp)
      · rw [if_neg hpv] at hload
        simp only [Option.some.injEq] at hload
        rw [← hload]
  · intro c p akVar prVar hvars hload
    unfold loadOneProvider at hload
    simp only [hvars] at hload
    cases hk : env akVar with
    | none => simp only [hk] at hload; exact absurd hload (by simp)
    | some key =>
      simp only [hk] at hload
      by_cases hkey : key = ""
      · rw [if_pos hkey] at hload; exact absurd hload (by simp)
      · rw [if_neg hkey] at hload
        by_cases hcon : c.constructs = false
        · rw [if_pos hcon] at hload; exact absurd hload (by simp)
        · rw [if_neg hcon] at hload
          simp only [Option.some.injEq] at hload
          rw [← hload]
  · intro c t hload
    unfold loadOneTrigger at hload
    by_cases hcon : c.constructs = false
    · rw [if_pos hcon] at hload; exact absurd hload (by simp)
    · rw [if_neg hcon] at hload
      cases hnm : truthyStr c.TRIGGER_NAME with
      | none =>
        simp only [hnm, Option.some.injEq] at hload
        rw [← hload]
      | some nm =>
        simp only [hnm] at hload
        by_cases hen : pyLower (getenvD env (nm ++ "_ENABLED") "true") = "false"
        · rw [if_pos hen] at hload; exact absurd hload (by simp)
        · rw [if_neg hen] at hload
          simp only [Option.some.injEq] at hload
          rw [← hload]
  · intro classes
    unfold load_handlers_from_env
    split
    · simp
    · exact pairwise_sortDesc _ _
  · intro classes
    unfold load_triggers_from_env
    split
    · simp
    · exact pairwise_sortDesc _ _
  · intro classes
    unfold load_providers_from_env
    split
    · simp
    · exact pairwise_sortDesc _ _
  · intro classes l hok
    unfold load_services_from_env at hok
    split at hok
    · exact absurd hok (by simp)
    · split at hok
      · exact absurd hok (by simp)
      · simp only [Except.ok.injEq] at hok
        rw [← hok]
        exact pairwise_sortDesc _ _

/-- A concrete environment setting MYHANDLER_PRIORITY to 5. -/
def envH : Env := fun k => if k = "MYHANDLER_PRIORITY" then some "5" else none

/-- A concrete handler class named MYHANDLER whose declared default priority
is 50 (the default of PipelineHandler). -/
def hcMyHandler : HandlerClass :=
  { HANDLER_NAME := some "MYHANDLER", constructs := true, inst := hBenign }

/-- The benign handler as loaded under envH: priority overridden to 5. -/
def hBenign5 : Handler := { hBenign with priority := 5 }

/-- A concrete environment setting MYTRIG_PRIORITY to 5. -/
def envTrig : Env := fun k => if k = "MYTRIG_PRIORITY" then some "5" else none

/-- A concrete trigger with the declared default priority 50. -/
def trigDefault50 : Trigger :=
  { name := "t50"
    priority := 50
    shouldTrigger := fun _ => Call.ok false
    extractUserMessage := fun _ => Call.ok none }

/-- A concrete trigger class named MYTRIG. -/
def tcMyTrig : TriggerClass :=
  { TRIGGER_NAME := some "MYTRIG", constructs := true, inst := trigDefault50 }

/-- C6 counterexample: for the Trigger unit kind the claim fails — with
MYTRIG_PRIORITY set to the valid integer 5, the loaded trigger still has its
declared default priority 50: load_triggers_from_env never consults
{NAME}_PRIORITY (src/ai_handler_pipeline/triggers/__init__.py reads only
{NAME}_ENABLED). -/
theorem trigger_priority_env_ignored :
    envTrig "MYTRIG_PRIORITY" = some "5" ∧
    load_triggers_from_env envTrig [tcMyTrig] = [trigDefault50] ∧
    trigDefault50.priority = 50 :=
  ⟨rfl, rfl, rfl⟩

/-- Concrete instance of priority_override_semantics: the clamp keeps 5 in
range, MYHANDLER_PRIORITY=5 overrides the handler default 50 to 5 via
priorityFromVar, the loaded handler instance carries exactly that priority,
and the loaded trigger keeps its declared default. -/
theorem priority_override_semantics_witness :
    (0 ≤ clampPriority 5 ∧ clampPriority 5 ≤ 100) ∧
    priorityFromVar envH (some "MYHANDLER_PRIORITY") 50 = clampPriority 5 ∧
    hBenign5.priority
      = (match truthyStr hcMyHandler.HANDLER_NAME with
         | some nm => priorityFromVar envH (some (nm ++ "_PRIORITY")) hcMyHandler.inst.priority
         | none => hcMyHandler.inst.priority) ∧
    trigDefault50.priority = tcMyTrig.inst.priority :=
  ⟨(priority_override_semantics envH).1 5,
   ((priority_override_semantics envH).2.1 "MYHANDLER_PRIORITY" 50 "5"
     (by decide) rfl (by decide)).1 5 rfl,
   (priority_override_semantics envH).2.2.1 hcMyHandler hBenign5 rfl,
   (priority_override_semantics envTrig).2.2.2.2.2.1 tcMyTrig trigDefault50 rfl⟩

/-- C7: a discovered class whose construction raises is excluded without
affecting its siblings: for each of the four unit kinds, loading a class list
containing a non-constructing class anywhere yields exactly the result of
loading the list without it (for services, provided the remaining list is
non-empty, since the source raises distinct errors for zero classes and zero
initialized services). -/
theorem construction_failure_contained (env : Env) :
    (∀ (cs1 cs2 : List HandlerClass) (bad : HandlerClass), bad.constructs = false →
      load_handlers_from_env env (cs1 ++ bad :: cs2)
        = load_handlers_from_env env (cs1 ++ cs2)) ∧
    (∀ (cs1 cs2 : List TriggerClass) (bad : TriggerClass), bad.constructs = false →
      load_triggers_from_env env (cs1 ++ bad :: cs2)
        = load_triggers_from_env env (cs1 ++ cs2)) ∧
    (∀ (cs1 cs2 : List ProviderClass) (bad : ProviderClass), bad.constructs = false →
      load_providers_from_env env (cs1 ++ bad :: cs2)
        = load_providers_from_env env (cs1 ++ cs2)) ∧
    (∀ (cs1 cs2 : List ServiceClass) (bad : ServiceClass), bad.constructs = false →
      cs1 ++ cs2 ≠ [] →
      load_services_from_env env (cs1 ++ bad :: cs2)
        = load_services_from_env env (cs1 ++ cs2)) := by
  refine ⟨?_, ?_, ?_, ?_⟩
  · intro cs1 cs2 bad hbad
    have hnone : loadOneHandler env bad = none := by simp [loadOneHandler, hbad]
    unfold load_handlers_from_env
    exact sorted_load_drop _ _ cs1 cs2 bad hnone
  · intro cs1 cs2 bad hbad
    have hnone : loadOneTrigger env bad = none := by simp [loadOneTrigger, hbad]
    unfold load_triggers_from_env
    exact sorted_load_drop _ _ cs1 cs2 bad hnone
  · intro cs1 cs2 bad hbad
    have hnone : loadOneProvider env bad = none := by
      unfold loadOneProvider
      cases hv : providerEnvVars bad with
      | none => simp [hv]
      | some pr =>
        rcases pr with ⟨ak, prv⟩
        simp only [hv]
        cases hk : env ak with
        | none => simp [hk]
        | some key =>
          simp only [hk]
          by_cases hkey : key = ""
          · simp [hkey]
          · simp [hkey, hbad]
    unfold load_providers_from_env
    exact sorted_load_drop _ _ cs1 cs2 bad hnone
  · intro cs1 cs2 bad hbad hne
    have hnone : loadOneService env bad = none := by simp [loadOneService, hbad]
    have hA : (cs1 ++ bad :: cs2).isEmpty = false := by cases cs1 <;> rfl
    have hB : (cs1 ++ cs2).isEmpty = false := by
      cases hc : cs1 ++ cs2 with
      | nil => exact absurd hc hne
      | cons a as => rfl
    unfold load_services_from_env
    rw [filterMap_drop_none _ _ _ _ hnone,
      @if_neg ((cs1 ++ bad :: cs2).isEmpty = true) _ (by simp [hA]) _ _ _,
      @if_neg ((cs1 ++ cs2).isEmpty = true) _ (by simp [hB]) _ _ _]

/-- A concrete non-constructing handler class. -/
def hcBadHandler : HandlerClass :=
  { HANDLER_NAME := none, constructs := false, inst := hBenign }

/-- A concrete constructing service class with no provider classes. -/
def scSample : ServiceClass :=
  { SERVICE_NAME := some "INSTAGRAM", URL_PATTERN := none,
    provider_classes := [], constructs := true }

/-- A concrete non-constructing service class. -/
def scBadService : ServiceClass :=
  { SERVICE_NAME := some "TIKTOK", URL_PATTERN := none,
    provider_classes := [], constructs := false }

/-- Concrete instance of construction_failure_contained. -/
theorem construction_failure_contained_witness :
    load_handlers_from_env envH [hcMyHandler, hcBadHandler]
      = load_handlers_from_env envH [hcMyHandler] ∧
    load_services_from_env envH [scSample, scBadService]
      = load_services_from_env envH [scSample] :=
  ⟨(construction_failure_contained envH).1 [hcMyHandler] [] hcBadHandler rfl,
   (construction_failure_contained envH).2.2.2 [scSample] [] scBadService rfl
     (List.cons_ne_nil _ _)⟩

/-- C8 counterexample: with zero discovered service classes the service
registry does not return an empty set — load_services_from_env raises
ValueError (src/video_services/__init__.py line 309), unlike the handler,
trigger and provider loaders. -/
theorem services_registry_raises_on_empty :
    load_services_from_env (fun _ => none) []
      = Except.error "No services found in video_services folder!" :=
  rfl

/-- C8 (amended): when loading yields zero implementations the handler,
trigger and provider registries return the empty list without raising,
leaving any fatal-treatment decision to the caller; the service registry
instead raises ValueError, with distinct messages for "no service classes
discovered" and "no service could be initialized", and a successful service
load is never empty. -/
theorem empty_discovery_behaviour (env : Env) :
    load_handlers_from_env env [] = [] ∧
    load_triggers_from_env env [] = [] ∧
    load_providers_from_env env [] = [] ∧
    load_services_from_env env []
      = Except.error "No services found in video_services folder!" ∧
    (∀ classes : List ServiceClass, classes ≠ [] →
      classes.filterMap (loadOneService env) = [] →
      load_services_from_env env classes
        = Except.error "No services could be initialized! Check your environment variables.") ∧
    (∀ (classes : List ServiceClass) (l : List Service),
      load_services_from_env env classes = Except.ok l → l ≠ []) := by
  refine ⟨rfl, rfl, rfl, rfl, ?_, ?_⟩
  · intro classes hne hfm
    have hA : classes.isEmpty = false := by
      cases hc : classes with
      | nil => exact absurd hc hne
      | cons a as => rfl
    unfold load_services_from_env
    rw [if_neg (by simp [hA]), hfm]
    rfl
  · intro classes l hok
    unfold load_services_from_env at hok
    split at hok
    · exact absurd hok (by simp)
    · split at hok
      · exact absurd hok (by simp)
      · simp only [Except.ok.injEq] at hok
        rw [← hok]
        cases hil : classes.filterMap (loadOneService env) with
        | nil => simp_all
        | cons x xs =>
          rw [sortDesc]
          exact insertDesc_ne_nil _ x _

/-- Concrete instance of empty_discovery_behaviour: a single non-constructing
service class triggers the zero-initialized ValueError. -/
theorem empty_discovery_behaviour_witness :
    load_services_from_env envH [scBadService]
      = Except.error "No services could be initialized! Check your environment variables." :=
  (empty_discovery_behaviour envH).2.2.2.2.1 [scBadService] (List.cons_ne_nil _ _) rfl
